import Mathlib

/-!
Shallow embedding of the seismic-event ingest/list service in
src/handler_igp.py (functions _to_decimal, fetch_last_10, upsert_items,
lambda_ingestar, lambda_listar).

Modelling conventions:
- Python/JSON values are the inductive `Value`.  A Python float is
  represented by its shortest round-trip decimal text (the exact string
  `str(x)` produces); the binary significand is not modelled.  A
  `decimal.Decimal` is represented by its literal text.
- A raw ArcGIS attribute mapping is `RawAttrs := String → Value`, with
  `nullV` standing both for an absent key and an explicit null (the code
  only reads attributes through `a.get(k)`, which conflates the two).
  The guard on lines 46-47 of the source collapses a null feature to the
  empty mapping, representable here as `fun _ => Value.nullV`.
- A normalized record (the dict literal built on lines 51-73) is an
  association list `Item := List (String × Value)` with the keys in the
  source's order.
- `uuid.uuid4()` is modelled by a caller-supplied stream
  `uuids : Nat → String`: the item at position `i` of the fetched batch
  draws `uuids i` when it needs a generated code.
- `int(...)` is modelled by `pyInt`, faithful on the integral and boolean
  values the feed supplies for its epoch-millisecond fields; on
  non-numeric text (where CPython would raise) it returns a junk value
  that no theorem below depends on.
- The DynamoDB table is `Store := String → Option Item`, keyed by the
  string primary key `code`; `batch_writer(overwrite_by_pkeys=["code"])`
  followed by `put_item` per item is the fold `upsert_items`.
- The HTTP fetch, the batch write and the scan are external collaborators:
  the handlers take their outcome as an `Except` argument.  A write
  failure (`WErr`) carries the exception message seen by `str(e)`, the
  per-item keys the store reported as failed, and the table state the
  aborted batch left behind.
- `json.dumps` serialization is elided: a response body is the inductive
  `Body` holding the same data.
- Python's `sorted(items, key=sort_key, reverse=True)` is a stable sort
  placing higher keys first; it is embedded as Mathlib's stable
  `List.insertionSort` with the flipped comparison, which produces the
  identical list.
-/

inductive Value where
  | nullV
  | boolV (b : Bool)
  | intV (n : Int)
  | floatV (r : String)
  | strV (s : String)
  | decV (d : String)
deriving DecidableEq, Repr

open Value

/-- Python truthiness (`bool(x)`) for the values above.  A float is falsy
exactly when it is a zero, whose shortest repr is "0.0" or "-0.0"; a
Decimal is falsy when its text carries no nonzero digit. -/
def truthy : Value → Bool
  | nullV => false
  | boolV b => b
  | intV n => n != 0
  | floatV r => r != "0.0" && r != "-0.0"
  | strV s => s != ""
  | decV d => d.any (fun c => c.isDigit && c != '0')

/-- Python `str(x)`. -/
def pyStr : Value → String
  | nullV => "None"
  | boolV b => if b then "True" else "False"
  | intV n => toString n
  | floatV r => r
  | strV s => s
  | decV d => d

/-- Python `int(x)`, modelled on the numeric values the feed supplies
(see the module docstring). -/
def pyInt : Value → Int
  | intV n => n
  | boolV b => if b then 1 else 0
  | strV s => (s.toInt?).getD 0
  | _ => 0

/-- Python `x or y`. -/
def pyOr (x y : Value) : Value := if truthy x then x else y

/-- A raw attribute mapping: `a k` is `a.get(k)`, with `nullV` for an
absent key. -/
def RawAttrs := String → Value

/-- A normalized record: the dict literal of fetch_last_10 as an
association list. -/
def Item := List (String × Value)
deriving DecidableEq

/-- `dict`-style lookup returning `none` when the key is missing. -/
def getField (it : Item) (k : String) : Option Value :=
  (List.find? (fun p => p.1 == k) it).map (fun p => p.2)

/-- Python `it.get(k)` on a record: missing keys read as null. -/
def getV (it : Item) (k : String) : Value := (getField it k).getD nullV

/-- Line 26-29: `_to_decimal` converts a float to a Decimal via the
string round-trip `Decimal(str(x))` and passes every other value through
unchanged.  Since a float is represented by its `str` text, the
conversion re-tags that text as a Decimal. -/
def _to_decimal : Value → Value
  | floatV r => decV r
  | v => v

/-- The pattern `str(a.get(k) or "")` used for every text field. -/
def strOrEmpty (v : Value) : Value := strV (pyStr (pyOr v (strV "")))

/-- Lines 49-73: normalization of one raw attribute mapping into the
candidate record, with `u` the uuid text drawn when `code` is falsy and
`now` the value of `int(time.time() * 1000)`. -/
def normalize_item (a : RawAttrs) (u : String) (now : Int) : Item :=
  [ ("code", strV (pyStr (pyOr (a "code") (strV u)))),
    ("reporte", strOrEmpty (a "mag")),
    ("fecha", if truthy (a "fecha") then intV (pyInt (a "fecha")) else nullV),
    ("hora", strOrEmpty (a "hora")),
    ("fechaevento", if truthy (a "fechaevento") then intV (pyInt (a "fechaevento")) else nullV),
    ("lat", if a "lat" ≠ nullV then _to_decimal (a "lat") else nullV),
    ("lon", if a "lon" ≠ nullV then _to_decimal (a "lon") else nullV),
    ("prof_km", a "prof"),
    ("profundidad_cat", strOrEmpty (a "profundidad")),
    ("referencia", strOrEmpty (a "ref")),
    ("intensidad", strOrEmpty (a "int_")),
    ("sentido", strOrEmpty (a "sentido")),
    ("magnitud", if a "magnitud" ≠ nullV then _to_decimal (a "magnitud") else nullV),
    ("departamento", strOrEmpty (a "departamento")),
    ("ingresado_ts", intV now),
    ("source", strV "IGP-ArcGIS") ]

/-- Lines 44-75: the normalization loop of fetch_last_10 over the fetched
features, drawing `uuids i` for the item at position `i`. -/
def fetch_last_10 (feats : List RawAttrs) (uuids : Nat → String) (now : Int) :
    List Item :=
  feats.mapIdx (fun i a => normalize_item a (uuids i) now)

/-- The DynamoDB table, keyed by the string primary key `code`. -/
def Store := String → Option Item

/-- The primary-key value of a record. -/
def item_code (it : Item) : String := pyStr (getV it "code")

/-- One `batch.put_item(Item=it)` under `overwrite_by_pkeys=["code"]`:
whole-record replacement at the record's key. -/
def put_item (s : Store) (it : Item) : Store :=
  fun k => if k = item_code it then some it else s k

/-- Lines 77-84: upsert_items writes the batch in order, each item
overwriting by primary key. -/
def upsert_items (s : Store) (items : List Item) : Store :=
  items.foldl put_item s

/-- A batch-write failure as the handler observes it: the exception
message (`str(e)`), the keys the store reported as failed, and the table
state the aborted batch left behind. -/
structure WErr where
  msg : String
  failedKeys : List String
  storeAfter : Store

/-- A response body (the argument of `json.dumps`). -/
inductive Body where
  | ingestOk (ingresados : Nat) (items : List Item)
  | listOk (count : Nat) (items : List Item)
  | errBody (msg : String)

/-- An HTTP response: status code and body (headers carry no data). -/
structure Response where
  statusCode : Nat
  body : Body

/-- Lines 86-103: lambda_ingestar.  `fetched` is the outcome of
fetch_last_10 (a raised requests/normalization exception propagates as
`.error`), `write` the batch-write collaborator, `store` the table state
on entry.  Returns the response and the table state on exit.  The write
runs only when the fetched list is non-empty (`if items:`); any exception
is caught and reported as a 500 with body `{"error": str(e)}`. -/
def lambda_ingestar (fetched : Except String (List Item))
    (write : List Item → Store → Except WErr Store) (store : Store) :
    Response × Store :=
  match fetched with
  | .error e => (⟨500, Body.errBody e⟩, store)
  | .ok items =>
    match (if items.isEmpty then Except.ok store else write items store) with
    | .error w => (⟨500, Body.errBody w.msg⟩, w.storeAfter)
    | .ok s2 => (⟨200, Body.ingestOk items.length items⟩, s2)

/-- Lines 121-122: the in-memory ranking key,
`it.get("fechaevento") or it.get("ingresado_ts") or 0`. -/
def sort_key (it : Item) : Value :=
  pyOr (getV it "fechaevento") (pyOr (getV it "ingresado_ts") (intV 0))

/-- The numeric reading of a ranking key (the keys are the integral
epoch-millisecond values the normalizer stores, or the literal 0). -/
def rankOf (it : Item) : Int := pyInt (sort_key it)

/-- Line 124: `sorted(items, key=sort_key, reverse=True)[:10]` — a stable
descending sort by the ranking key, truncated to the literal 10. -/
def lambda_listar_items (items : List Item) : List Item :=
  (List.insertionSort (fun x y => rankOf y ≤ rankOf x) items).take 10

/-- Lines 105-136: lambda_listar.  `scanned` is the outcome of the
bounded scan; a scan exception is caught and reported as a 500 with body
`{"error": str(e)}`. -/
def lambda_listar (scanned : Except String (List Item)) : Response :=
  match scanned with
  | .error e => ⟨500, Body.errBody e⟩
  | .ok items =>
    ⟨200, Body.listOk (lambda_listar_items items).length (lambda_listar_items items)⟩

/-! ### Concrete fixtures used by witnesses and counterexamples -/

/-- A raw item with every attribute absent. -/
def emptyRaw : RawAttrs := fun _ => nullV

/-- A raw item whose only attribute is `hora = 0` (present, non-null, falsy). -/
def aHora0 : RawAttrs := fun k => if k = "hora" then intV 0 else nullV

/-- A raw item whose only attribute is `code = ""`. -/
def aCodeEmpty : RawAttrs := fun k => if k = "code" then strV "" else nullV

/-- A raw item whose only attribute is `code = 0`. -/
def aCode0 : RawAttrs := fun k => if k = "code" then intV 0 else nullV

/-- A raw item whose only attribute is `fecha = 0`. -/
def aFecha0 : RawAttrs := fun k => if k = "fecha" then intV 0 else nullV

/-- A raw item whose only attribute is `fechaevento = 0`. -/
def aFe0 : RawAttrs := fun k => if k = "fechaevento" then intV 0 else nullV

/-- A uuid supply for witnesses. -/
def wuuids : Nat → String := fun n => if n = 0 then "u0" else "u1"

/-- A stored record holding only a fechaevento value. -/
def pageItem (n : Int) : Item := [("fechaevento", intV n)]

/-- A scanned page with fechaevento values [5, 3, 9, 1]. -/
def page4 : List Item := [pageItem 5, pageItem 3, pageItem 9, pageItem 1]

/-- A stored record with fechaevento 0 and ingresado_ts 7. -/
def itFe0 : Item := [("fechaevento", intV 0), ("ingresado_ts", intV 7)]

/-- A stored record with no fechaevento key and ingresado_ts 7. -/
def itNoFe : Item := [("ingresado_ts", intV 7)]

/-- The empty table. -/
def emptyStore : Store := fun _ => none

/-- A minimal keyed record with code "A". -/
def itA : Item := [("code", strV "A")]

/-- A write error with message "boom" blaming key "A". -/
def wboomA : WErr := ⟨"boom", ["A"], emptyStore⟩

/-- A write error with message "boom" blaming no key. -/
def wboomNone : WErr := ⟨"boom", [], emptyStore⟩

/-! ### Claim theorems -/

/-- C1 (counterexample): the claim says a raw item missing "lat" yields a
record with no "lat" key at all and that no key of the normalized record
holds a null value.  On the code, the raw item with every attribute
absent normalizes to a record that still carries the key "lat", bound to
an explicit null. -/
theorem C1_counterexample :
    getField (normalize_item emptyRaw "u0" 0) "lat" = some nullV ∧
    getField (normalize_item emptyRaw "u0" 0) "lat" ≠ none := by decide

/-- C1 (amended): fetch_last_10 strips nothing.  Every normalized record
carries all sixteen keys of the dict literal, in order, and a raw item
whose "lat" attribute is absent/null yields a record whose "lat" key is
present and bound to null (in particular not bound to zero). -/
theorem C1_amended_no_sparsification :
    (∀ (a : RawAttrs) (u : String) (now : Int),
      (normalize_item a u now).map Prod.fst =
        ["code", "reporte", "fecha", "hora", "fechaevento", "lat", "lon",
         "prof_km", "profundidad_cat", "referencia", "intensidad",
         "sentido", "magnitud", "departamento", "ingresado_ts", "source"]) ∧
    (∀ (a : RawAttrs) (u : String) (now : Int), a "lat" = nullV →
      getField (normalize_item a u now) "lat" = some nullV) := by
  constructor
  · intro a u now
    rfl
  · intro a u now h
    unfold getField normalize_item
    rw [h]
    rfl

/-- C1 (witness for the amended theorem): instantiated at the empty raw
item. -/
theorem C1_amended_witness :
    getField (normalize_item emptyRaw "u0" 0) "lat" = some nullV :=
  C1_amended_no_sparsification.2 emptyRaw "u0" 0 rfl

/-- C5: identity resolution.  A truthy raw code is kept, rendered with
str; a falsy/absent raw code is replaced by the drawn uuid text; the item
at position i of the fetched batch is the normalization of feature i
with uuid i; and two items of one batch that both lack a truthy code get
the distinct uuid texts of their positions as codes. -/
theorem C5_identity_resolution :
    (∀ (a : RawAttrs) (u : String) (now : Int), truthy (a "code") = true →
      getField (normalize_item a u now) "code" = some (strV (pyStr (a "code")))) ∧
    (∀ (a : RawAttrs) (u : String) (now : Int), truthy (a "code") = false →
      getField (normalize_item a u now) "code" = some (strV u)) ∧
    (∀ (feats : List RawAttrs) (uuids : Nat → String) (now : Int) (i : Nat)
      (hi : i < feats.length) (hi2 : i < (fetch_last_10 feats uuids now).length),
      (fetch_last_10 feats uuids now).get ⟨i, hi2⟩ =
        normalize_item (feats.get ⟨i, hi⟩) (uuids i) now) ∧
    (∀ (feats : List RawAttrs) (uuids : Nat → String) (now : Int) (i j : Nat)
      (hi : i < feats.length) (hj : j < feats.length)
      (hi2 : i < (fetch_last_10 feats uuids now).length)
      (hj2 : j < (fetch_last_10 feats uuids now).length),
      truthy ((feats.get ⟨i, hi⟩) "code") = false →
      truthy ((feats.get ⟨j, hj⟩) "code") = false →
      uuids i ≠ uuids j →
      item_code ((fetch_last_10 feats uuids now).get ⟨i, hi2⟩) ≠
        item_code ((fetch_last_10 feats uuids now).get ⟨j, hj2⟩)) := by
  have hkeep : ∀ (a : RawAttrs) (u : String) (now : Int), truthy (a "code") = true →
      getField (normalize_item a u now) "code" = some (strV (pyStr (a "code"))) := by
    intro a u now h
    unfold getField normalize_item pyOr
    rw [h]
    rfl
  have hgen : ∀ (a : RawAttrs) (u : String) (now : Int), truthy (a "code") = false →
      getField (normalize_item a u now) "code" = some (strV u) := by
    intro a u now h
    unfold getField normalize_item pyOr
    rw [h]
    rfl
  have hget : ∀ (feats : List RawAttrs) (uuids : Nat → String) (now : Int) (i : Nat)
      (hi : i < feats.length) (hi2 : i < (fetch_last_10 feats uuids now).length),
      (fetch_last_10 feats uuids now).get ⟨i, hi2⟩ =
        normalize_item (feats.get ⟨i, hi⟩) (uuids i) now := by
    intro feats uuids now i hi hi2
    exact List.get_mapIdx feats (fun i a => normalize_item a (uuids i) now) i hi hi2
  refine ⟨hkeep, hgen, hget, ?_⟩
  intro feats uuids now i j hi hj hi2 hj2 hci hcj hne
  rw [hget feats uuids now i hi hi2, hget feats uuids now j hj hj2]
  have hui : item_code (normalize_item (feats.get ⟨i, hi⟩) (uuids i) now) = uuids i := by
    unfold item_code getV
    rw [hgen (feats.get ⟨i, hi⟩) (uuids i) now hci]
    rfl
  have huj : item_code (normalize_item (feats.get ⟨j, hj⟩) (uuids j) now) = uuids j := by
    unfold item_code getV
    rw [hgen (feats.get ⟨j, hj⟩) (uuids j) now hcj]
    rfl
  rw [hui, huj]
  exact hne

/-- C5 (witness): a two-feature batch, both features lacking a code,
drawing the distinct uuid texts "u0" and "u1". -/
theorem C5_identity_witness :
    item_code ((fetch_last_10 [emptyRaw, emptyRaw] wuuids 0).get ⟨0, by decide⟩) ≠
      item_code ((fetch_last_10 [emptyRaw, emptyRaw] wuuids 0).get ⟨1, by decide⟩) :=
  C5_identity_resolution.2.2.2 [emptyRaw, emptyRaw] wuuids 0 0 1
    (by decide) (by decide) (by decide) (by decide) (by decide) (by decide) (by decide)

/-- C8 (counterexample): the claim says a text field resolves to the
string form of the raw value whenever the raw attribute is present and
non-null.  A raw item carrying `hora = 0` (present, non-null) normalizes
to `hora = ""`, not to the string form "0": the code tests truthiness
(`str(a.get("hora") or "")`), not only absence/null. -/
theorem C8_counterexample :
    aHora0 "hora" ≠ nullV ∧
    getField (normalize_item aHora0 "u0" 0) "hora" = some (strV "") ∧
    strV "" ≠ strV (pyStr (aHora0 "hora")) := by decide

/-- C8 (amended): each of the seven text fields, paired with the raw
attribute it reads (reporte reads "mag", referencia reads "ref",
intensidad reads "int_", profundidad_cat reads "profundidad"), resolves
to the empty string whenever the raw attribute is absent, null or falsy
(e.g. 0 or ""), and to the str rendering of the raw value otherwise;
never to null. -/
theorem C8_amended_text_defaulting :
    ∀ (a : RawAttrs) (u : String) (now : Int) (f rk : String),
      (f, rk) ∈ ([("reporte", "mag"), ("hora", "hora"),
        ("profundidad_cat", "profundidad"), ("referencia", "ref"),
        ("intensidad", "int_"), ("sentido", "sentido"),
        ("departamento", "departamento")] : List (String × String)) →
      getField (normalize_item a u now) f =
        some (strV (if truthy (a rk) then pyStr (a rk) else "")) := by
  intro a u now f rk hmem
  simp only [List.mem_cons, List.not_mem_nil, or_false, Prod.mk.injEq] at hmem
  rcases hmem with ⟨rfl, rfl⟩ | ⟨rfl, rfl⟩ | ⟨rfl, rfl⟩ | ⟨rfl, rfl⟩ |
    ⟨rfl, rfl⟩ | ⟨rfl, rfl⟩ | ⟨rfl, rfl⟩
  · unfold getField normalize_item strOrEmpty pyOr
    cases h : truthy (a "mag") <;> rfl
  · unfold getField normalize_item strOrEmpty pyOr
    cases h : truthy (a "hora") <;> rfl
  · unfold getField normalize_item strOrEmpty pyOr
    cases h : truthy (a "profundidad") <;> rfl
  · unfold getField normalize_item strOrEmpty pyOr
    cases h : truthy (a "ref") <;> rfl
  · unfold getField normalize_item strOrEmpty pyOr
    cases h : truthy (a "int_") <;> rfl
  · unfold getField normalize_item strOrEmpty pyOr
    cases h : truthy (a "sentido") <;> rfl
  · unfold getField normalize_item strOrEmpty pyOr
    cases h : truthy (a "departamento") <;> rfl

/-- C8 (witness for the amended theorem): the hora field of the raw item
carrying `hora = 0` resolves to the empty string. -/
theorem C8_amended_witness :
    getField (normalize_item aHora0 "u0" 0) "hora" =
      some (strV (if truthy (aHora0 "hora") then pyStr (aHora0 "hora") else "")) :=
  C8_amended_text_defaulting aHora0 "u0" 0 "hora" "hora" (by decide)

/-- C10: present-but-falsy values are treated as absent.  A raw code
equal to "" or 0 triggers the uuid fallback; a raw fecha or fechaevento
equal to 0 is normalized to null rather than stored as 0; and in
retrieval a record whose fechaevento reads 0 ranks by ingresado_ts when
that is truthy and by 0 otherwise. -/
theorem C10_falsy_treated_as_absent :
    (∀ (a : RawAttrs) (u : String) (now : Int), a "code" = strV "" →
      getField (normalize_item a u now) "code" = some (strV u)) ∧
    (∀ (a : RawAttrs) (u : String) (now : Int), a "code" = intV 0 →
      getField (normalize_item a u now) "code" = some (strV u)) ∧
    (∀ (a : RawAttrs) (u : String) (now : Int), a "fecha" = intV 0 →
      getField (normalize_item a u now) "fecha" = some nullV ∧
      getField (normalize_item a u now) "fecha" ≠ some (intV 0)) ∧
    (∀ (a : RawAttrs) (u : String) (now : Int), a "fechaevento" = intV 0 →
      getField (normalize_item a u now) "fechaevento" = some nullV ∧
      getField (normalize_item a u now) "fechaevento" ≠ some (intV 0)) ∧
    (∀ it : Item, getV it "fechaevento" = intV 0 →
      sort_key it =
        (if truthy (getV it "ingresado_ts") then getV it "ingresado_ts" else intV 0)) := by
  refine ⟨?_, ?_, ?_, ?_, ?_⟩
  · intro a u now h
    unfold getField normalize_item pyOr
    rw [h]
    rfl
  · intro a u now h
    unfold getField normalize_item pyOr
    rw [h]
    rfl
  · intro a u now h
    have h1 : getField (normalize_item a u now) "fecha" = some nullV := by
      unfold getField normalize_item
      rw [h]
      rfl
    refine ⟨h1, ?_⟩
    rw [h1]
    decide
  · intro a u now h
    have h1 : getField (normalize_item a u now) "fechaevento" = some nullV := by
      unfold getField normalize_item
      rw [h]
      rfl
    refine ⟨h1, ?_⟩
    rw [h1]
    decide
  · intro it h
    unfold sort_key
    rw [h]
    rfl

/-- C10 (witness): instantiated at the concrete raw items carrying
code "", code 0, fecha 0, fechaevento 0, and at the stored record with
fechaevento 0 and ingresado_ts 7. -/
theorem C10_witness :
    getField (normalize_item aCodeEmpty "u0" 5) "code" = some (strV "u0") ∧
    getField (normalize_item aCode0 "u0" 5) "code" = some (strV "u0") ∧
    getField (normalize_item aFecha0 "u0" 5) "fecha" = some nullV ∧
    getField (normalize_item aFe0 "u0" 5) "fechaevento" = some nullV ∧
    sort_key itFe0 =
      (if truthy (getV itFe0 "ingresado_ts") then getV itFe0 "ingresado_ts" else intV 0) :=
  ⟨C10_falsy_treated_as_absent.1 aCodeEmpty "u0" 5 (by decide),
   C10_falsy_treated_as_absent.2.1 aCode0 "u0" 5 (by decide),
   (C10_falsy_treated_as_absent.2.2.1 aFecha0 "u0" 5 (by decide)).1,
   (C10_falsy_treated_as_absent.2.2.2.1 aFe0 "u0" 5 (by decide)).1,
   C10_falsy_treated_as_absent.2.2.2.2 itFe0 (by decide)⟩

/-! ### Upsert lemmas -/

/-- The last record of a batch carrying the given key, if any (the write
that survives a left-to-right batch of overwrites). -/
def last_put : List Item → String → Option Item
  | [], _ => none
  | it :: rest, k =>
    match last_put rest k with
    | some r => some r
    | none => if item_code it = k then some it else none

/-- What a batch upsert leaves at key `k`: the last batch record with
that key if the batch carries one, the prior table entry otherwise. -/
theorem upsert_items_lookup (items : List Item) (s : Store) (k : String) :
    upsert_items s items k =
      match last_put items k with
      | some r => some r
      | none => s k := by
  induction items generalizing s with
  | nil => rfl
  | cons it rest ih =>
    show upsert_items (put_item s it) rest k = _
    rw [ih]
    cases hrest : last_put rest k with
    | some r => simp [last_put, hrest]
    | none =>
      cases hit : decide (item_code it = k) with
      | true =>
        have hk : item_code it = k := of_decide_eq_true hit
        simp [last_put, hrest, put_item, hk]
      | false =>
        have hk : ¬ item_code it = k := of_decide_eq_false hit
        simp only [last_put, hrest, put_item]
        rw [if_neg hk, if_neg (fun h => hk h.symm)]

/-- C3: upsert is idempotent and last-write-wins on the key `code`.  For
a batch of records each carrying a natural (non-empty) code, writing the
identical batch twice leaves the table in the same state as writing it
once; and writing a single record installs exactly that record at its
key, fully replacing whatever was stored there, whatever the prior table
held. -/
theorem C3_upsert_idempotent_lww :
    (∀ (store : Store) (items : List Item), (∀ it ∈ items, item_code it ≠ "") →
      upsert_items (upsert_items store items) items = upsert_items store items) ∧
    (∀ (store : Store) (it : Item),
      upsert_items store [it] (item_code it) = some it) := by
  constructor
  · intro store items _
    funext k
    rw [upsert_items_lookup items (upsert_items store items) k,
      upsert_items_lookup items store k]
    cases h : last_put items k with
    | some r => rfl
    | none => rfl
  · intro store it
    show put_item store it (item_code it) = some it
    unfold put_item
    rw [if_pos rfl]

/-- C3 (witness): the one-record batch holding the record with code "A",
written twice into the empty table. -/
theorem C3_upsert_witness :
    upsert_items (upsert_items emptyStore [itA]) [itA] =
      upsert_items emptyStore [itA] :=
  C3_upsert_idempotent_lww.1 emptyStore [itA] (by decide)

/-- C9: when the fetch yields zero items, ingest performs no table write
at all — for every write collaborator the table state is returned
unchanged — and the response is a 200 whose body reports ingresados 0
and an empty items list. -/
theorem C9_empty_fetch_is_noop :
    ∀ (write : List Item → Store → Except WErr Store) (store : Store),
      lambda_ingestar (Except.ok []) write store =
        (⟨200, Body.ingestOk 0 []⟩, store) := by
  intro write store
  rfl

/-- C6: all-or-nothing error propagation.  A fetch failure yields a
single 500 response carrying the cause and leaves the table untouched
for every write collaborator (the write is never invoked); a write
failure on a non-empty batch yields a single 500 response carrying the
cause; a scan failure makes list fail entirely with a single 500
response carrying the cause and no items. -/
theorem C6_error_propagation :
    (∀ (e : String) (write : List Item → Store → Except WErr Store) (store : Store),
      lambda_ingestar (Except.error e) write store =
        (⟨500, Body.errBody e⟩, store)) ∧
    (∀ (items : List Item) (store : Store) (w : WErr)
      (write : List Item → Store → Except WErr Store),
      items ≠ [] → write items store = Except.error w →
      lambda_ingestar (Except.ok items) write store =
        (⟨500, Body.errBody w.msg⟩, w.storeAfter)) ∧
    (∀ e : String, lambda_listar (Except.error e) = ⟨500, Body.errBody e⟩) := by
  refine ⟨fun e write store => rfl, ?_, fun e => rfl⟩
  intro items store w write hne hw
  cases items with
  | nil => exact absurd rfl hne
  | cons a l => simp [lambda_ingestar, hw]

/-- C6 (witness): a one-record batch whose write collaborator fails with
message "boom". -/
theorem C6_error_witness :
    lambda_ingestar (Except.ok [itA]) (fun _ _ => Except.error wboomA) emptyStore =
      (⟨500, Body.errBody "boom"⟩, emptyStore) :=
  C6_error_propagation.2.1 [itA] emptyStore wboomA (fun _ _ => Except.error wboomA)
    (by decide) rfl

/-- C7 (counterexample): the claim says a partial per-item write failure
surfaces which keys failed alongside the overall failure.  Two write
failures that differ exactly in the reported failed keys (["A"] against
none) produce identical ingest results, so the result carries no
information about the failed keys: only `str(e)` is returned. -/
theorem C7_counterexample :
    lambda_ingestar (Except.ok [itA]) (fun _ _ => Except.error wboomA) emptyStore =
      lambda_ingestar (Except.ok [itA]) (fun _ _ => Except.error wboomNone) emptyStore := by
  rfl

/-- C7 (amended): when the write collaborator fails on a non-empty
batch, the ingest response is a 500 carrying only the exception message;
it is the same whatever failed-key set the store reported. -/
theorem C7_amended_only_message :
    ∀ (items : List Item) (store : Store) (msg : String)
      (ks : List String) (sa : Store),
      items ≠ [] →
      (lambda_ingestar (Except.ok items)
        (fun _ _ => Except.error ⟨msg, ks, sa⟩) store).1 = ⟨500, Body.errBody msg⟩ := by
  intro items store msg ks sa hne
  cases items with
  | nil => exact absurd rfl hne
  | cons a l => simp [lambda_ingestar]

/-- C7 (witness for the amended theorem): the failing one-record batch
with message "boom" and reported failed keys ["A"]. -/
theorem C7_amended_witness :
    (lambda_ingestar (Except.ok [itA])
      (fun _ _ => Except.error ⟨"boom", ["A"], emptyStore⟩) emptyStore).1 =
      ⟨500, Body.errBody "boom"⟩ :=
  C7_amended_only_message [itA] emptyStore "boom" ["A"] emptyStore (by decide)

/-- C2 (counterexample): the claim says list with topN=2 returns the two
items with ranking keys [9, 5] from the scanned page [5, 3, 9, 1].
lambda_listar takes no topN parameter — its truncation bound is the
literal 10 — so on that page it returns all four items, keyed
[9, 5, 3, 1], not the two-item list [9, 5]. -/
theorem C2_counterexample :
    (lambda_listar_items page4).map rankOf = [9, 5, 3, 1] ∧
    (lambda_listar_items page4).map rankOf ≠ [9, 5] := by decide

/-- C2 (amended): lambda_listar computes the ranking key
(fechaevento if truthy, else ingresado_ts if truthy, else 0), sorts the
scanned page descending by it, stably, and truncates to the fixed top
10: the output length is min 10 (page length), the output is pairwise
descending by the ranking key, the page with keys [5, 3, 9, 1] comes
back ordered [9, 5, 3, 1] (whose first two entries are the claim's
[9, 5]), and a record lacking fechaevento ranks by ingresado_ts (by 0
when that is falsy too). -/
theorem C2_amended_listar :
    (∀ items : List Item, (lambda_listar_items items).length = min 10 items.length) ∧
    (∀ items : List Item,
      (lambda_listar_items items).Pairwise (fun x y => rankOf y ≤ rankOf x)) ∧
    ((lambda_listar_items page4).map rankOf = [9, 5, 3, 1] ∧
      (lambda_listar_items page4).take 2 = [pageItem 9, pageItem 5]) ∧
    (∀ it : Item, getV it "fechaevento" = nullV →
      sort_key it = pyOr (getV it "ingresado_ts") (intV 0)) := by
  refine ⟨?_, ?_, by decide, ?_⟩
  · intro items
    unfold lambda_listar_items
    rw [List.length_take, List.length_insertionSort]
  · intro items
    unfold lambda_listar_items
    have hs : List.Pairwise (fun x y : Item => rankOf y ≤ rankOf x)
        (List.insertionSort (fun x y => rankOf y ≤ rankOf x) items) := by
      haveI : IsTotal Item (fun x y => rankOf y ≤ rankOf x) :=
        ⟨fun a b => le_total (rankOf b) (rankOf a)⟩
      haveI : IsTrans Item (fun x y => rankOf y ≤ rankOf x) :=
        ⟨fun a b c hab hbc => le_trans hbc hab⟩
      exact List.sorted_insertionSort _ items
    exact List.Pairwise.sublist (List.take_sublist 10 _) hs
  · intro it h
    unfold sort_key
    rw [h]
    rfl

/-- C2 (witness for the amended theorem): the record with no fechaevento
key and ingresado_ts 7 ranks by its ingresado_ts. -/
theorem C2_amended_witness :
    sort_key itNoFe = pyOr (getV itNoFe "ingresado_ts") (intV 0) :=
  C2_amended_listar.2.2.2 itNoFe (by decide)
